import Mathlib

/-!
Verification of the HRFlow AI HR-automation application.

This file gives a shallow embedding, in Lean 4, of the parts of the
repository that the verified properties talk about:

* the onboarding orchestrator `executeInvisibleOnboarding` and its helper
  functions (`calculateLocalSalary`, `getCurrency`, `generateComplianceItems`,
  `provisionSystemAccess`) from the invisible-onboarding engine;
* the RAG chatbot pipeline `processHRQuestion`, `buildEmployeeContext`,
  `provideFeedback` and the configuration record `RAG_CONFIG`;
* the SQL function `match_policies` from the database schema;
* the HTTP route handlers for `POST /chat/message`, `PUT /chat/message`
  and `GET /stats`.

External effects (Supabase queries, OpenAI calls) are modelled by explicit
environment records carrying the outcome of each call (`Except` for calls
that can fail), so each JavaScript function becomes a pure Lean function of
its inputs and such an environment.  Wall-clock readings (`Date.now()`,
`new Date()`) are modelled by explicit integer parameters (milliseconds
since the epoch); timestamps and durations inside timeline entries, which no
verified property depends on, are omitted from the timeline model.
JavaScript `Date` arithmetic on calendar dates (`setDate`, `setFullYear`)
is kept symbolic via `DateExpr`.
-/

namespace HRFlow

/-- The three contract types the onboarding engine can request. -/
inductive ContractType where
  | employment
  | nda
  | equity
deriving DecidableEq, Repr

/-- A generated contract as returned by `generateContract` (content plus the
metadata fields the orchestrator reads). -/
structure Contract where
  content : String
  fileSize : Nat
  generationTimeMs : Nat
deriving DecidableEq, Repr

/-- The candidate payload handed to `executeInvisibleOnboarding`.
Optional JavaScript fields are `Option`s; a missing numeric field and the
number `0` are both falsy in the source, which the embedding reflects by
`Option.getD 0` where the source tests truthiness. -/
structure CandidateData where
  fullName : String
  email : String
  role : String
  department : String
  country : String
  salaryUSD : Int
  equityShares : Option Int
  startDate : String
  managerId : Option String
  firstName : Option String
  lastName : Option String
  employmentType : Option String
deriving DecidableEq, Repr

/-- An `employees` table row, restricted to the columns the embedded code
reads or writes.  `last_leave_date` is milliseconds since the epoch, the
representation under which the chatbot's date subtraction is performed. -/
structure Employee where
  id : String
  email : String
  full_name : String
  first_name : String
  last_name : String
  role : String
  country : String
  department : String
  salary_usd : Int
  salary_local : Int
  currency : String
  equity_shares : Int
  employment_type : String
  start_date : String
  manager_id : Option String
  leave_balance_days : Option Int
  last_leave_date : Option Int
deriving DecidableEq, Repr

/-- Symbolic calendar arithmetic standing in for JavaScript `Date`
mutations (`setDate(getDate()+n)`, `setFullYear(getFullYear()+n)`). -/
inductive DateExpr where
  | plusDays (base : String) (n : Nat)
  | plusYears (base : String) (n : Nat)
deriving DecidableEq, Repr

/-- A `compliance_items` row as built by `generateComplianceItems`. -/
structure ComplianceItem where
  employee_id : String
  item_type : String
  item_name : String
  description : String
  expiry_date : Option DateExpr
  status : String
deriving DecidableEq, Repr

/-- One entry of the orchestration `timeline`, keeping the payload fields
the verified properties mention (timestamps and durations omitted). -/
inductive TimelineEntry where
  | contractsGenerated (count : Nat) (types : List ContractType)
  | employeeCreated (employeeId : String)
  | contractsSaved (savedCount : Nat)
  | complianceInitialized (itemsCount : Nat)
  | welcomeEmailSent (simulated : Bool) (recipient : String)
  | calendarEventsCreated (simulated : Bool) (eventsCount : Nat)
  | systemAccessProvisioned (simulated : Bool)
deriving DecidableEq, Repr

/-- One entry of the orchestrator's `errors` array:
`{ step, type?, error }`. -/
structure OnboardError where
  step : String
  type : Option ContractType
  message : String
deriving DecidableEq, Repr

/-- The `automation_logs` row written at the end of a run. -/
structure AutomationLog where
  trigger_event : String
  employee_id : Option String
  actions_taken : List TimelineEntry
  success : Bool
  error_message : Option String
deriving DecidableEq, Repr

/-- The value returned by `executeInvisibleOnboarding`: the success summary
or the failure object, flattened into one record (fields absent from the
JavaScript failure object are `none` / `[]` there). -/
structure OnboardResult where
  success : Bool
  error : Option String
  timeline : List TimelineEntry
  errors : List OnboardError
  employee : Option Employee
  contracts : List (ContractType × Contract)
  complianceSaved : Option (List ComplianceItem)
deriving DecidableEq, Repr

/-- A whole run: the returned result plus the audit row written to
`automation_logs`. -/
structure OnboardOutcome where
  result : OnboardResult
  audit : AutomationLog
deriving DecidableEq, Repr

/-- Outcomes of the external calls one onboarding run performs:
per-type contract generation, the employee insert (returning the new row
id), per-type contract saves (`none` = saved) and the compliance bulk
insert. -/
structure OnboardEnv where
  contractGen : ContractType → Except String Contract
  employeeInsert : Except String String
  contractSave : ContractType → Option String
  complianceInsert : Except String Unit

/-- JavaScript `Math.round` on a rational value (round half toward +∞). -/
def jsRound (q : ℚ) : Int := Int.floor (q + 1/2)

/-- Source: `calculateLocalSalary` — fixed conversion rates, rounded. -/
def calculateLocalSalary (usdSalary : Int) (country : String) : Int :=
  let rate : ℚ :=
    if country = "SG" then 135/100
    else if country = "UK" then 79/100
    else if country = "US" then 1
    else if country = "IN" then 83
    else if country = "UAE" then 367/100
    else 1
  jsRound (usdSalary * rate)

/-- Source: `getCurrency` — currency code per country, defaulting to USD. -/
def getCurrency (country : String) : String :=
  if country = "SG" then "SGD"
  else if country = "UK" then "GBP"
  else if country = "US" then "USD"
  else if country = "IN" then "INR"
  else if country = "UAE" then "AED"
  else "USD"

/-- Step 1's contract-type selection:
`['employment','nda']`, plus `'equity'` when
`candidateData.equityShares && candidateData.equityShares > 0`
(for a number, JavaScript truthiness plus the comparison is exactly
`equityShares > 0`, with a missing field behaving like `0`). -/
def contractTypesFor (cand : CandidateData) : List ContractType :=
  [ContractType.employment, ContractType.nda] ++
    (if 0 < cand.equityShares.getD 0 then [ContractType.equity] else [])

/-- The employee row produced by the step-2 insert when it succeeds, as a
function of the candidate payload and the id assigned by the store.
Mirrors the insert object literal of the source (defaulted fields
included). -/
def insertedEmployee (cand : CandidateData) (newId : String) : Employee :=
  { id := newId
    email := cand.email
    full_name := cand.fullName
    first_name := cand.firstName.getD ((cand.fullName.splitOn " ").headD "")
    last_name :=
      cand.lastName.getD (String.intercalate " " ((cand.fullName.splitOn " ").drop 1))
    role := cand.role
    country := cand.country
    department := cand.department
    salary_usd := cand.salaryUSD
    salary_local := calculateLocalSalary cand.salaryUSD cand.country
    currency := getCurrency cand.country
    equity_shares := cand.equityShares.getD 0
    employment_type := cand.employmentType.getD "full_time"
    start_date := cand.startDate
    manager_id := cand.managerId
    leave_balance_days := none
    last_leave_date := none }

/-- Source: `generateComplianceItems` — four trainings due 30 days after
the start date, a 2-year work permit for UAE/US, and two equipment loans
with no expiry. -/
def generateComplianceItems (employee : Employee) : List ComplianceItem :=
  let trainings :=
    ["Information Security", "GDPR Compliance", "Code of Conduct", "Safety Training"]
  let trainingItems := trainings.map (fun training =>
    { employee_id := employee.id
      item_type := "training_certification"
      item_name := training
      description := "Complete " ++ training ++ " within 30 days of joining"
      expiry_date := some (DateExpr.plusDays employee.start_date 30)
      status := "active" : ComplianceItem })
  let permitItems :=
    if employee.country = "UAE" ∨ employee.country = "US" then
      [{ employee_id := employee.id
         item_type := "work_permit"
         item_name := employee.country ++ " Work Permit"
         description := "Employment authorization document"
         expiry_date := some (DateExpr.plusYears employee.start_date 2)
         status := "active" : ComplianceItem }]
    else []
  let equipment : List (String × Nat) :=
    [("MacBook Pro 16\"", 2500), ("External Monitor", 400)]
  let equipmentItems := equipment.map (fun item =>
    { employee_id := employee.id
      item_type := "equipment_loan"
      item_name := item.1
      description := "Company equipment - Value: USD " ++ toString item.2
      expiry_date := none
      status := "active" : ComplianceItem })
  trainingItems ++ permitItems ++ equipmentItems

/-- Source: `provisionSystemAccess` — the fixed five pending provisions
(system, account handle). -/
def provisionSystemAccess (employee : Employee) : List (String × String) :=
  [("Email", employee.email),
   ("Slack", "@" ++ employee.first_name.toLower),
   ("GitHub", employee.first_name.toLower ++ "-" ++ employee.last_name.toLower),
   ("HR Portal", employee.email),
   ("Jira", employee.email)]

/-- The five first-week calendar event titles of
`createOnboardingCalendar` (event dates are wall-clock renderings of the
start date and are not needed by any verified property). -/
def onboardingCalendarTitles : List String :=
  ["Welcome & Orientation", "IT Setup & System Access", "Meet Your Manager",
   "Team Introduction", "First Week Check-in"]

/-- Step 1's per-type generation results, in request order. -/
def stage1Results (cand : CandidateData) (env : OnboardEnv) :
    List (ContractType × Except String Contract) :=
  (contractTypesFor cand).map (fun t => (t, env.contractGen t))

/-- The contracts that generated successfully (`contracts.filter(c => c !== null)`). -/
def successfulContracts (cand : CandidateData) (env : OnboardEnv) :
    List (ContractType × Contract) :=
  (stage1Results cand env).filterMap (fun tr =>
    match tr.2 with
    | Except.ok c => some (tr.1, c)
    | Except.error _ => none)

/-- The `errors` entries pushed by the per-generation `.catch` handlers. -/
def stage1Errors (cand : CandidateData) (env : OnboardEnv) : List OnboardError :=
  (stage1Results cand env).filterMap (fun tr =>
    match tr.2 with
    | Except.ok _ => none
    | Except.error e => some { step := "contract_generation", type := some tr.1, message := e })

/-- The timeline after step 1 (`contracts_generated`). -/
def stage1Timeline (cand : CandidateData) (env : OnboardEnv) : List TimelineEntry :=
  [TimelineEntry.contractsGenerated (successfulContracts cand env).length
    ((successfulContracts cand env).map Prod.fst)]

/-- Source: `executeInvisibleOnboarding`.  Stage 2 failing throws (after
pushing an `employee_creation` error), landing in the catch block which
writes a failed audit row and returns the failure object with the timeline
recorded so far.  Every other stage failure only appends to `errors`; the
success summary is returned with `success: true`, and the audit row's
`success` is `errors.length === 0`. -/
def executeInvisibleOnboarding (cand : CandidateData) (env : OnboardEnv) :
    OnboardOutcome :=
  let genErrors := stage1Errors cand env
  let contracts := successfulContracts cand env
  let timeline1 := stage1Timeline cand env
  match env.employeeInsert with
  | Except.error msg =>
      -- STEP 2 failed: push the error, throw, land in the catch block.
      let errs := genErrors ++ [{ step := "employee_creation", type := none, message := msg }]
      let errText := "Failed to create employee: " ++ msg
      { result :=
          { success := false, error := some errText, timeline := timeline1
            errors := errs, employee := none, contracts := []
            complianceSaved := none }
        audit :=
          { trigger_event := "new_hire_onboarding", employee_id := none
            actions_taken := timeline1, success := false
            error_message := some errText } }
  | Except.ok newId =>
      let employee := insertedEmployee cand newId
      let timeline2 := timeline1 ++ [TimelineEntry.employeeCreated employee.id]
      -- STEP 3: save each generated contract; failures only push errors.
      let saveErrors := contracts.filterMap (fun tc =>
        (env.contractSave tc.1).map (fun e =>
          { step := "contract_save", type := some tc.1, message := e : OnboardError }))
      let savedContracts := contracts.filter (fun tc => env.contractSave tc.1 = none)
      let timeline3 := timeline2 ++ [TimelineEntry.contractsSaved savedContracts.length]
      -- STEP 4: compliance bulk insert; failure only pushes an error.
      let complianceItems := generateComplianceItems employee
      let complianceErrors :=
        match env.complianceInsert with
        | Except.error e => [{ step := "compliance_init", type := none, message := e : OnboardError }]
        | Except.ok _ => []
      let savedCompliance :=
        match env.complianceInsert with
        | Except.error _ => none
        | Except.ok _ => some complianceItems
      let timeline4 := timeline3 ++
        [TimelineEntry.complianceInitialized ((savedCompliance.map List.length).getD 0)]
      -- STEPS 5-7: simulated notifications (options default to simulation).
      let timeline5 := timeline4 ++ [TimelineEntry.welcomeEmailSent true employee.email]
      let timeline6 := timeline5 ++
        [TimelineEntry.calendarEventsCreated true onboardingCalendarTitles.length]
      let timeline7 := timeline6 ++ [TimelineEntry.systemAccessProvisioned true]
      let errors := genErrors ++ saveErrors ++ complianceErrors
      { result :=
          { success := true, error := none, timeline := timeline7
            errors := errors, employee := some employee, contracts := contracts
            complianceSaved := savedCompliance }
        audit :=
          { trigger_event := "new_hire_onboarding", employee_id := some employee.id
            actions_taken := timeline7, success := errors.isEmpty
            error_message := none } }

/-! ## RAG chatbot pipeline -/

/-- Source: `RAG_CONFIG` — the chatbot configuration constants. -/
structure RagConfig where
  embeddingModel : String
  chatModel : String
  similarityThreshold : ℚ
  maxPolicies : Nat
  maxTokens : Nat
  temperature : ℚ

/-- The configured values (`similarityThreshold: 0.5`, `maxPolicies: 3`). -/
def RAG_CONFIG : RagConfig :=
  { embeddingModel := "text-embedding-3-small"
    chatModel := "gpt-4-turbo-preview"
    similarityThreshold := 1/2
    maxPolicies := 3
    maxTokens := 1000
    temperature := 3/10 }

/-- A row of the `match_policies` result set: a `policies` row projected to
the returned columns, with `similarity` holding the value
`1 - (p.embedding <=> query_embedding)` the engine computes for the query
embedding at hand (the cosine arithmetic itself is the vector extension's,
external to this repository). -/
structure Policy where
  id : String
  title : String
  content : String
  category : String
  country : Option String
  similarity : ℚ
deriving DecidableEq, Repr

/-- Source: SQL function `match_policies` — keep the rows with
`similarity > match_threshold`, order by ascending cosine distance
(equivalently descending similarity) and truncate to `match_count`. -/
def match_policies (match_threshold : ℚ) (match_count : Nat)
    (policies : List Policy) : List Policy :=
  ((policies.filter (fun p => match_threshold < p.similarity)).insertionSort
    (fun a b => b.similarity ≤ a.similarity)).take match_count

/-- The literal fallback sentence `buildEmployeeContext` appends when no
policies were retrieved. -/
def noPoliciesFallback : String :=
  "No specific policies found for this question. Use general HR knowledge and employee data to provide a helpful response."

/-- Source: `buildEmployeeContext`.  `now` is the value of `new Date()`
(milliseconds since the epoch) read when the employee has a
`last_leave_date`; `Math.floor` of the day quotient is `Int.fdiv`. -/
def buildEmployeeContext (employee : Employee) (policies : List Policy)
    (now : Int) : String :=
  let base := "EMPLOYEE CONTEXT:\n"
    ++ "Name: " ++ employee.full_name ++ "\n"
    ++ "Role: " ++ employee.role ++ "\n"
    ++ "Department: " ++ employee.department ++ "\n"
    ++ "Country: " ++ employee.country ++ "\n"
    ++ "Start Date: " ++ employee.start_date ++ "\n"
    ++ "Leave Balance: " ++ toString (employee.leave_balance_days.getD 0) ++ " days\n"
  let base :=
    match employee.last_leave_date with
    | some d =>
        let daysSinceLeave := Int.fdiv (now - d) (1000 * 60 * 60 * 24)
        base ++ "Last Leave: " ++ toString daysSinceLeave ++ " days ago\n"
    | none => base
  let base :=
    match employee.manager_id with
    | some m => base ++ "Reports To: Manager (ID: " ++ m ++ ")\n"
    | none => base
  let base := base ++ "\nRELEVANT COMPANY POLICIES:\n\n"
  if policies.isEmpty then
    base ++ noPoliciesFallback ++ "\n\n"
  else
    base ++ String.join ((policies.enum.map (fun pi =>
      toString (pi.1 + 1) ++ ". " ++ pi.2.title ++ " (" ++ pi.2.category ++ ")\n"
        ++ pi.2.content ++ "\n\n" ++ "---\n\n")))

/-- The chat completion's answer and token usage counters. -/
structure Completion where
  content : String
  prompt_tokens : Nat
  completion_tokens : Nat
  total_tokens : Nat
deriving DecidableEq, Repr

/-- Outcomes of the external calls of one `processHRQuestion` run:
the employee fetch (`none` models both a query error and a missing row,
which the source collapses into one thrown "Employee not found"), the
embedding call, the `match_policies` RPC, the chat completion, and the
`chat_messages` insert (returning the new row id). -/
structure ChatEnv where
  fetchEmployee : Option Employee
  embedding : Except String (List ℚ)
  searchResult : Except String (List Policy)
  completion : Except String Completion
  saveResult : Except String String

/-- What one `processHRQuestion` call returns, plus `rowWritten`, the
store-level fact of whether a `chat_messages` row was inserted.  Fields the
JavaScript failure object omits are `none`/`0`/`[]` on failure. -/
structure ChatResult where
  success : Bool
  error : Option String
  question : Option String
  answer : Option String
  policies_used : Nat
  policies : List (String × String × ℚ)
  conversation_id : Option String
  contextSent : Option String
  traceSaved : Option Bool
  rowWritten : Bool
deriving DecidableEq, Repr

/-- The failure object returned by `processHRQuestion`'s catch block. -/
def chatFailure (msg : String) : ChatResult :=
  { success := false, error := some msg, question := none, answer := none, policies_used := 0
    policies := [], conversation_id := none, contextSent := none
    traceSaved := none, rowWritten := false }

/-- Source: `processHRQuestion`.  A failed employee fetch or embedding or
completion call throws into the catch block (`success: false`); a failed
policy search only logs and continues with a null result (so an empty
policy list); a failed conversation save only logs (`saved: !saveError` in
the trace) and the success object is still returned, with
`metadata.conversation_id = savedMessage?.id` absent. -/
def processHRQuestion (question : String) (now : Int) (env : ChatEnv) :
    ChatResult :=
  match env.fetchEmployee with
  | none => chatFailure "Employee not found"
  | some employee =>
    match env.embedding with
    | Except.error e => chatFailure e
    | Except.ok _ =>
      let relevantPolicies : Option (List Policy) := env.searchResult.toOption
      let pols := relevantPolicies.getD []
      let context := buildEmployeeContext employee pols now
      match env.completion with
      | Except.error e => chatFailure e
      | Except.ok completion =>
        let savedMessage : Option String := env.saveResult.toOption
        { success := true
          error := none
          question := some question
          answer := some completion.content
          policies_used := pols.length
          policies := pols.map (fun p => (p.title, p.category, p.similarity))
          conversation_id := savedMessage
          contextSent := some context
          traceSaved := some savedMessage.isSome
          rowWritten := savedMessage.isSome }

/-! ## HTTP route handlers -/

/-- A stored `chat_messages` row, restricted to the columns the feedback
path touches. -/
structure ChatMessageRow where
  id : String
  employee_id : String
  message : String
  response : String
  helpful : Option Bool
  feedback_comment : Option String
deriving DecidableEq, Repr

/-- A JSON HTTP response, reduced to the fields the verified properties
inspect: the status code, the optional `success` flag and the optional
`error` string. -/
structure HttpResponse where
  status : Nat
  success : Option Bool
  error : Option String
deriving DecidableEq, Repr

/-- The `POST /chat/message` body.  A missing `employeeId`/`question` is
falsy in the source exactly when the string is empty, so missing fields are
modelled by `""`. -/
structure ChatPostRequest where
  employeeId : String
  question : String
deriving DecidableEq, Repr

/-- Source: route handler `POST` of `/api/chat/message`.  Validation runs
before `processHRQuestion`: missing employee id, then empty/whitespace
question, then `question.length > 500`, each answered with a 400.
Otherwise the RAG pipeline runs; the handler returns 500 on
`success:false` and 200 otherwise.  The second component is the
`chat_messages` store after the call (a row is appended exactly when the
pipeline's insert succeeded). -/
def POST_chat_message (req : ChatPostRequest) (env : ChatEnv) (now : Int)
    (store : List ChatMessageRow) : HttpResponse × List ChatMessageRow :=
  if req.employeeId = "" then
    ({ status := 400, success := none, error := some "Employee ID is required" }, store)
  else if req.question.trim = "" then
    ({ status := 400, success := none, error := some "Question is required" }, store)
  else if 500 < req.question.length then
    ({ status := 400, success := none
       error := some "Question too long (max 500 characters)" }, store)
  else
    let result := processHRQuestion req.question now env
    let store' :=
      match env.fetchEmployee, env.embedding, env.completion, env.saveResult with
      | some _, Except.ok _, Except.ok completion, Except.ok newId =>
          store ++ [{ id := newId, employee_id := req.employeeId
                      message := req.question, response := completion.content
                      helpful := none, feedback_comment := none }]
      | _, _, _, _ => store
    if result.success then
      ({ status := 200, success := some true, error := none }, store')
    else
      ({ status := 500, success := none, error := some "Failed to process question" }, store')

/-- The outcome of the store-level `update` statement the feedback path
issues: `none` means the statement itself succeeded (matching zero rows is
not an error), `some e` a store failure. -/
structure FeedbackEnv where
  updateError : Option String

/-- Source: `provideFeedback` — update `helpful` and `feedback_comment` on
every `chat_messages` row whose `id` equals `messageId`; throw only when
the store reports an error, otherwise return `{ success: true }` (there is
no existence check on `messageId`). -/
def provideFeedback (messageId : String) (helpful : Bool) (comment : Option String)
    (env : FeedbackEnv) (store : List ChatMessageRow) :
    Except String (List ChatMessageRow) :=
  match env.updateError with
  | some e => Except.error ("Failed to save feedback: " ++ e)
  | none => Except.ok (store.map (fun m =>
      if m.id = messageId then
        { m with helpful := some helpful, feedback_comment := comment }
      else m))

/-- The `PUT /chat/message` body: `messageId` (missing modelled by `""`),
`helpful` (`none` models any non-boolean JSON value) and the optional
comment. -/
structure ChatPutRequest where
  messageId : String
  helpful : Option Bool
  comment : Option String
deriving DecidableEq, Repr

/-- Source: route handler `PUT` of `/api/chat/message` — 400 when
`messageId` is missing or `helpful` is not a boolean, 500 when
`provideFeedback` throws, else 200 with `success: true`. -/
def PUT_chat_message (req : ChatPutRequest) (env : FeedbackEnv)
    (store : List ChatMessageRow) : HttpResponse × List ChatMessageRow :=
  if req.messageId = "" then
    ({ status := 400, success := none, error := some "Message ID is required" }, store)
  else
    match req.helpful with
    | none =>
        ({ status := 400, success := none, error := some "Helpful must be true or false" }, store)
    | some b =>
        match provideFeedback req.messageId b req.comment env store with
        | Except.error e => ({ status := 500, success := none, error := some e }, store)
        | Except.ok store' => ({ status := 200, success := some true, error := none }, store')

/-- The `GET /stats` response body: the `success` flag and the four
counters of the `stats` object. -/
structure StatsBody where
  success : Bool
  total_employees : Nat
  total_contracts : Nat
  total_chats : Nat
  time_saved_hours : Nat
deriving DecidableEq, Repr

/-- Outcome of the three head-count queries of `GET /stats`: an exception
anywhere in the `try` block, or the three (possibly null) counts. -/
structure StatsEnv where
  counts : Except String (Option Nat × Option Nat × Option Nat)

/-- Source: route handler `GET` of `/api/stats` — on success a 200 with the
counts (null coalesced to 0) and `time_saved_hours = Math.round(employeeCount * 4)`
(a null count multiplies to 0); the catch block answers 500 with
`success: false` and all four counters zero. -/
def GET_stats (env : StatsEnv) : Nat × StatsBody :=
  match env.counts with
  | Except.error _ =>
      (500, { success := false, total_employees := 0, total_contracts := 0
              total_chats := 0, time_saved_hours := 0 })
  | Except.ok cs =>
      (200, { success := true
              total_employees := cs.1.getD 0
              total_contracts := cs.2.1.getD 0
              total_chats := cs.2.2.getD 0
              time_saved_hours := (cs.1.getD 0) * 4 })

/-! ## Verified properties -/

/-- The zeroed stats body the catch block of `GET /stats` answers with. -/
def zeroStats : StatsBody :=
  { success := false, total_employees := 0, total_contracts := 0
    total_chats := 0, time_saved_hours := 0 }

/-- Counterexample to claim C6: `GET /stats` does NOT always return HTTP 200 — on an
internal failure the catch block answers with status 500 (carrying the
zeroed stats object), refuting the claim at this concrete failing
environment. -/
theorem stats_error_returns_500 :
    (GET_stats { counts := Except.error "connection refused" }).1 = 500 ∧
    (GET_stats { counts := Except.error "connection refused" }).1 ≠ 200 := by
  constructor
  · rfl
  · decide

/-- Claim C6, amended: on internal failure `GET /stats` returns the stats object
with all four counters zero, but with HTTP status 500, not 200; on success
it returns 200 and `time_saved_hours` equals the employee count times 4. -/
theorem stats_amended_semantics (env : StatsEnv) :
    (∀ e, env.counts = Except.error e → GET_stats env = (500, zeroStats)) ∧
    (∀ cs, env.counts = Except.ok cs →
      (GET_stats env).1 = 200 ∧
      (GET_stats env).2.time_saved_hours = (GET_stats env).2.total_employees * 4) := by
  constructor
  · intro e he
    simp [GET_stats, he, zeroStats]
  · intro cs hcs
    simp [GET_stats, hcs]

/-- Witness for C6's amended theorem at concrete environments. -/
theorem stats_amended_semantics_witness :
    GET_stats { counts := Except.error "boom" } = (500, zeroStats) ∧
    ((GET_stats { counts := Except.ok (some 7, some 14, some 3) }).1 = 200 ∧
      (GET_stats { counts := Except.ok (some 7, some 14, some 3) }).2.time_saved_hours =
        (GET_stats { counts := Except.ok (some 7, some 14, some 3) }).2.total_employees * 4) :=
  ⟨(stats_amended_semantics { counts := Except.error "boom" }).1 "boom" rfl,
   (stats_amended_semantics { counts := Except.ok (some 7, some 14, some 3) }).2
     (some 7, some 14, some 3) rfl⟩

/-- Claim C7: any `POST /chat/message` whose question is longer than 500
characters is rejected with HTTP 400 by the validation that runs before
`processHRQuestion`, and the `chat_messages` store is unchanged. -/
theorem post_chat_overlong_question_rejected (req : ChatPostRequest) (env : ChatEnv)
    (now : Int) (store : List ChatMessageRow) (h : 500 < req.question.length) :
    (POST_chat_message req env now store).1.status = 400 ∧
    (POST_chat_message req env now store).2 = store := by
  unfold POST_chat_message
  by_cases h1 : req.employeeId = "" <;> by_cases h2 : req.question.trim = "" <;>
    simp [h1, h2, h]

/-- A 501-character question used to witness C7. -/
def longQuestion : String := String.mk (List.replicate 501 'a')

/-- An environment in which every external chat call would succeed, used to
witness that the 400 rejection does not depend on them. -/
def envAllOk : ChatEnv :=
  { fetchEmployee := none
    embedding := Except.ok [1]
    searchResult := Except.ok []
    completion := Except.ok { content := "ok", prompt_tokens := 1, completion_tokens := 1, total_tokens := 2 }
    saveResult := Except.ok "m1" }

set_option maxRecDepth 8000 in
/-- Witness for C7 at a concrete 501-character question. -/
theorem post_chat_overlong_question_rejected_witness :
    500 < longQuestion.length ∧
    ((POST_chat_message { employeeId := "e1", question := longQuestion } envAllOk 0 []).1.status = 400 ∧
     (POST_chat_message { employeeId := "e1", question := longQuestion } envAllOk 0 []).2 = []) :=
  ⟨by decide,
   post_chat_overlong_question_rejected { employeeId := "e1", question := longQuestion }
     envAllOk 0 [] (by decide)⟩

/-- Claim C10: `provideFeedback` performs no existence check — for a well-formed
`PUT /chat/message` whose `messageId` matches no stored row, the update
matches zero rows without error, the endpoint answers 200 with
`success: true`, and the store is unchanged. -/
theorem put_feedback_unknown_message_ok (req : ChatPutRequest) (env : FeedbackEnv)
    (store : List ChatMessageRow) (b : Bool)
    (h1 : req.messageId ≠ "") (h2 : req.helpful = some b)
    (h3 : env.updateError = none)
    (h4 : ∀ m ∈ store, m.id ≠ req.messageId) :
    (PUT_chat_message req env store).1 =
      { status := 200, success := some true, error := none } ∧
    (PUT_chat_message req env store).2 = store := by
  have hmap : store.map (fun m =>
      if m.id = req.messageId then
        { m with helpful := some b, feedback_comment := req.comment }
      else m) = store := by
    have h5 : ∀ m ∈ store, (fun m : ChatMessageRow =>
        if m.id = req.messageId then
          { m with helpful := some b, feedback_comment := req.comment }
        else m) m = id m := fun m hm => by simp [h4 m hm]
    rw [List.map_congr_left h5, List.map_id]
  unfold PUT_chat_message provideFeedback
  simp [h1, h2, h3, hmap]

/-- A stored chat message used to witness C10. -/
def rowC10 : ChatMessageRow :=
  { id := "msg-1", employee_id := "e1", message := "q", response := "a"
    helpful := none, feedback_comment := none }

/-- Witness for C10: feedback on the unknown id `"msg-404"` against a store
holding only `"msg-1"` returns 200/success and leaves the store intact. -/
theorem put_feedback_unknown_message_ok_witness :
    (PUT_chat_message { messageId := "msg-404", helpful := some true, comment := none }
        { updateError := none } [rowC10]).1 =
      { status := 200, success := some true, error := none } ∧
    (PUT_chat_message { messageId := "msg-404", helpful := some true, comment := none }
        { updateError := none } [rowC10]).2 = [rowC10] :=
  put_feedback_unknown_message_ok
    { messageId := "msg-404", helpful := some true, comment := none }
    { updateError := none } [rowC10] true (by decide) rfl rfl (by decide)

/-- An employee with a recorded `last_leave_date`, on which
`buildEmployeeContext` reads the clock. -/
def empC4 : Employee :=
  { id := "e4", email := "ada@x.com", full_name := "Ada Lovelace"
    first_name := "Ada", last_name := "Lovelace", role := "Engineer"
    country := "UK", department := "Engineering", salary_usd := 100000
    salary_local := 79000, currency := "GBP", equity_shares := 0
    employment_type := "full_time", start_date := "2024-01-01"
    manager_id := none, leave_balance_days := some 10
    last_leave_date := some 0 }

/-- Counterexample to claim C4: `buildEmployeeContext` is NOT a function of the
employee snapshot and the policies alone — when `last_leave_date` is
present it reads the current date (`new Date()`), so the same two inputs
rendered one day apart produce different text blocks. -/
theorem buildEmployeeContext_clock_dependent :
    buildEmployeeContext empC4 [] 0 ≠ buildEmployeeContext empC4 [] 86400000 := by
  decide

/-- Claim C4, amended: `buildEmployeeContext` is a pure deterministic function of
the employee snapshot, the retrieved policies AND the current clock; the
clock only enters through the "days since last leave" line, so whenever the
employee has no `last_leave_date` the output is independent of when the
call executes. -/
theorem buildEmployeeContext_time_independent_without_last_leave
    (emp : Employee) (pols : List Policy) (t1 t2 : Int)
    (h : emp.last_leave_date = none) :
    buildEmployeeContext emp pols t1 = buildEmployeeContext emp pols t2 := by
  unfold buildEmployeeContext
  rw [h]

/-- The employee of `empC4` with the last-leave field cleared, witnessing
the amended C4. -/
def empC4nl : Employee := { empC4 with last_leave_date := none }

/-- Witness for C4's amended theorem at concrete times 0 and one day
later. -/
theorem buildEmployeeContext_time_independent_witness :
    buildEmployeeContext empC4nl [] 0 = buildEmployeeContext empC4nl [] 86400000 :=
  buildEmployeeContext_time_independent_without_last_leave empC4nl [] 0 86400000 rfl

instance policySimTotal : IsTotal Policy (fun a b => b.similarity ≤ a.similarity) :=
  ⟨fun a b => le_total b.similarity a.similarity⟩

instance policySimTrans : IsTrans Policy (fun a b => b.similarity ≤ a.similarity) :=
  ⟨fun _ _ _ h1 h2 => le_trans h2 h1⟩

/-- Claim C3: with the configured threshold (0.5) and `maxPolicies` (3), the
`match_policies` result has at most 3 entries, every entry's similarity is
at least the threshold (the SQL predicate is strict, which implies it), and
entries are ordered by descending similarity. -/
theorem match_policies_bounded_thresholded_sorted (policies : List Policy) :
    (match_policies RAG_CONFIG.similarityThreshold RAG_CONFIG.maxPolicies policies).length ≤ 3 ∧
    (∀ p ∈ match_policies RAG_CONFIG.similarityThreshold RAG_CONFIG.maxPolicies policies,
        RAG_CONFIG.similarityThreshold ≤ p.similarity) ∧
    (match_policies RAG_CONFIG.similarityThreshold RAG_CONFIG.maxPolicies policies).Pairwise
      (fun a b => b.similarity ≤ a.similarity) := by
  refine ⟨?_, ?_, ?_⟩
  · exact List.length_take_le 3 _
  · intro p hp
    simp only [match_policies] at hp
    have h2 := List.take_subset _ _ hp
    rw [List.mem_insertionSort] at h2
    have h3 := (List.mem_filter.mp h2).2
    exact le_of_lt (of_decide_eq_true h3)
  · simp only [match_policies]
    have hs : ((policies.filter
          (fun p => RAG_CONFIG.similarityThreshold < p.similarity)).insertionSort
        (fun a b => b.similarity ≤ a.similarity)).Pairwise
        (fun a b => b.similarity ≤ a.similarity) :=
      List.sorted_insertionSort _ _
    exact hs.sublist (List.take_sublist _ _)

/-- A retrievable policy row used to witness C3. -/
def polC3 : Policy :=
  { id := "p1", title := "Annual Leave Policy"
    content := "Employees in SG receive 14 days of annual leave."
    category := "leave", country := some "SG", similarity := 3/4 }

/-- Witness for C3: the single retrieved policy scores at least the
configured threshold. -/
theorem match_policies_witness :
    RAG_CONFIG.similarityThreshold ≤ polC3.similarity :=
  (match_policies_bounded_thresholded_sorted [polC3]).2.1 polC3 (by
    have h : match_policies RAG_CONFIG.similarityThreshold RAG_CONFIG.maxPolicies [polC3] =
        [polC3] := by
      norm_num [match_policies, RAG_CONFIG, polC3, List.insertionSort,
        List.orderedInsert, List.filter]
    rw [h]
    exact List.mem_singleton.mpr rfl)

/-- Helper for C8: on an empty retrieved-policy list the assembled context
contains the literal fallback sentence. -/
theorem buildEmployeeContext_nil_has_fallback (emp : Employee) (now : Int) :
    ∃ a b, buildEmployeeContext emp [] now = a ++ noPoliciesFallback ++ b := by
  unfold buildEmployeeContext
  exact ⟨_, "\n\n", rfl⟩

/-- Claim C8: when the similarity search fails or returns zero documents,
`processHRQuestion` does not abort — it proceeds with an empty policy list
(`policies_used = 0`, overall success), and the context assembled for the
generation step contains the explicit fallback sentence directing it to
general knowledge. -/
theorem chat_search_failure_degrades_gracefully (question : String) (now : Int)
    (env : ChatEnv) (emp : Employee) (v : List ℚ) (c : Completion)
    (h1 : env.fetchEmployee = some emp) (h2 : env.embedding = Except.ok v)
    (h3 : (∃ e, env.searchResult = Except.error e) ∨ env.searchResult = Except.ok [])
    (h4 : env.completion = Except.ok c) :
    (processHRQuestion question now env).success = true ∧
    (processHRQuestion question now env).policies_used = 0 ∧
    (∃ a b, (processHRQuestion question now env).contextSent =
        some (a ++ noPoliciesFallback ++ b)) := by
  have hpols : env.searchResult.toOption.getD [] = ([] : List Policy) := by
    rcases h3 with ⟨e, he⟩ | he <;> simp [he, Except.toOption]
  refine ⟨?_, ?_, ?_⟩ <;> simp [processHRQuestion, h1, h2, h4, hpols]
  obtain ⟨a, b, hab⟩ := buildEmployeeContext_nil_has_fallback emp now
  exact ⟨a, b, hab⟩

/-- The employee fetched in the C8 scenario. -/
def empC8 : Employee :=
  { id := "e8", email := "kim@x.com", full_name := "Kim Lee", first_name := "Kim"
    last_name := "Lee", role := "Designer", country := "SG", department := "Design"
    salary_usd := 80000, salary_local := 108000, currency := "SGD"
    equity_shares := 0, employment_type := "full_time", start_date := "2024-02-01"
    manager_id := none, leave_balance_days := some 12, last_leave_date := none }

/-- A chat environment whose search step fails, used to witness C8. -/
def envC8 : ChatEnv :=
  { fetchEmployee := some empC8
    embedding := Except.ok [1, 0]
    searchResult := Except.error "rpc unavailable"
    completion := Except.ok { content := "Here is what I know.", prompt_tokens := 150
                              completion_tokens := 25, total_tokens := 175 }
    saveResult := Except.ok "msg-8" }

/-- Witness for C8 at a concrete failing-search environment. -/
theorem chat_search_failure_degrades_gracefully_witness :
    (processHRQuestion "What is the leave policy?" 0 envC8).success = true ∧
    (processHRQuestion "What is the leave policy?" 0 envC8).policies_used = 0 ∧
    (∃ a b, (processHRQuestion "What is the leave policy?" 0 envC8).contextSent =
        some (a ++ noPoliciesFallback ++ b)) :=
  chat_search_failure_degrades_gracefully "What is the leave policy?" 0 envC8
    empC8 [1, 0]
    { content := "Here is what I know.", prompt_tokens := 150
      completion_tokens := 25, total_tokens := 175 }
    rfl rfl (Or.inl ⟨"rpc unavailable", rfl⟩) rfl

/-- The employee fetched in the C2 scenario. -/
def empC2 : Employee :=
  { id := "e2", email := "bob@x.com", full_name := "Bob Tan", first_name := "Bob"
    last_name := "Tan", role := "Analyst", country := "SG", department := "Finance"
    salary_usd := 90000, salary_local := 121500, currency := "SGD"
    equity_shares := 0, employment_type := "full_time", start_date := "2024-06-01"
    manager_id := none, leave_balance_days := some 14, last_leave_date := none }

/-- The successful completion of the C2 scenario. -/
def complC2 : Completion :=
  { content := "You have 14 days of annual leave.", prompt_tokens := 200
    completion_tokens := 20, total_tokens := 220 }

/-- A chat environment in which every step succeeds except the
`chat_messages` insert. -/
def envC2 : ChatEnv :=
  { fetchEmployee := some empC2
    embedding := Except.ok [1, 0]
    searchResult := Except.ok []
    completion := Except.ok complC2
    saveResult := Except.error "insert failed" }

/-- Counterexample to claim C2: when steps 1-4 succeed and persisting the
ConversationTurn fails, `processHRQuestion` does NOT abort with
`success:false` — the save error is only logged, and the state with no
`chat_messages` row written is returned as `success:true`, refuting the
claim at this concrete input. -/
theorem chat_save_failure_counterexample :
    (processHRQuestion "How much annual leave do I have?" 0 envC2).success = true ∧
    (processHRQuestion "How much annual leave do I have?" 0 envC2).rowWritten = false := by
  exact ⟨rfl, rfl⟩

/-- Claim C2, amended: when steps 1-4 succeed and the ConversationTurn insert
fails, the call still returns `success:true`; the failure is only recorded
in the trace (`saved: false`), the returned `conversation_id` is absent,
and no row was written — so the no-row state IS visible as a successful
answer. -/
theorem chat_save_failure_still_success (question : String) (now : Int)
    (env : ChatEnv) (emp : Employee) (v : List ℚ) (ps : List Policy)
    (c : Completion) (e : String)
    (h1 : env.fetchEmployee = some emp) (h2 : env.embedding = Except.ok v)
    (h3 : env.searchResult = Except.ok ps) (h4 : env.completion = Except.ok c)
    (h5 : env.saveResult = Except.error e) :
    (processHRQuestion question now env).success = true ∧
    (processHRQuestion question now env).conversation_id = none ∧
    (processHRQuestion question now env).traceSaved = some false ∧
    (processHRQuestion question now env).rowWritten = false := by
  simp [processHRQuestion, h1, h2, h3, h4, h5, Except.toOption]

/-- Witness for C2's amended theorem at the concrete failing-save
environment. -/
theorem chat_save_failure_still_success_witness :
    (processHRQuestion "q" 0 envC2).success = true ∧
    (processHRQuestion "q" 0 envC2).conversation_id = none ∧
    (processHRQuestion "q" 0 envC2).traceSaved = some false ∧
    (processHRQuestion "q" 0 envC2).rowWritten = false :=
  chat_save_failure_still_success "q" 0 envC2 empC2 [1, 0] [] complC2
    "insert failed" rfl rfl rfl rfl rfl

/-- Helper: a `filterMap` whose function yields `some` on every element of
the list preserves the length. -/
theorem length_filterMap_of_isSome {α β : Type} (f : α → Option β) :
    ∀ l : List α, (∀ x ∈ l, (f x).isSome) → (l.filterMap f).length = l.length := by
  intro l
  induction l with
  | nil => intro _; simp
  | cons a t ih =>
    intro h
    cases hfa : f a with
    | none =>
      have hsome := h a (List.mem_cons_self a t)
      rw [hfa] at hsome
      simp at hsome
    | some b =>
      simp only [List.filterMap_cons, hfa, List.length_cons]
      rw [ih (fun x hx => h x (List.mem_cons_of_mem a hx))]

/-- Claim C1: if the employee-creation stage fails, `executeInvisibleOnboarding`
returns `success:false` with exactly the partial timeline recorded before
the throw (the stage-1 entry); if stage 2 succeeds, the result reports
`success:true`, and every non-fatal stage failure — a contract generation,
a contract save, the compliance seeding — appears as an entry of the
returned `errors` array. -/
theorem onboarding_overall_failure_semantics (cand : CandidateData) (env : OnboardEnv) :
    (∀ msg, env.employeeInsert = Except.error msg →
        (executeInvisibleOnboarding cand env).result.success = false ∧
        (executeInvisibleOnboarding cand env).result.timeline = stage1Timeline cand env) ∧
    (∀ newId, env.employeeInsert = Except.ok newId →
        (executeInvisibleOnboarding cand env).result.success = true ∧
        (∀ t e, t ∈ contractTypesFor cand → env.contractGen t = Except.error e →
            ({ step := "contract_generation", type := some t, message := e } : OnboardError) ∈
              (executeInvisibleOnboarding cand env).result.errors) ∧
        (∀ t c e, (t, c) ∈ successfulContracts cand env → env.contractSave t = some e →
            ({ step := "contract_save", type := some t, message := e } : OnboardError) ∈
              (executeInvisibleOnboarding cand env).result.errors) ∧
        (∀ e, env.complianceInsert = Except.error e →
            ({ step := "compliance_init", type := none, message := e } : OnboardError) ∈
              (executeInvisibleOnboarding cand env).result.errors)) := by
  constructor
  · intro msg h
    simp [executeInvisibleOnboarding, h]
  · intro newId h
    refine ⟨?_, ?_, ?_, ?_⟩
    · simp [executeInvisibleOnboarding, h]
    · intro t e ht he
      simp only [executeInvisibleOnboarding, h]
      apply List.mem_append_left
      apply List.mem_append_left
      refine List.mem_filterMap.mpr ⟨(t, Except.error e), ?_, rfl⟩
      refine List.mem_map.mpr ⟨t, ht, ?_⟩
      rw [he]
    · intro t c e htc he
      simp only [executeInvisibleOnboarding, h]
      apply List.mem_append_left
      apply List.mem_append_right
      refine List.mem_filterMap.mpr ⟨(t, c), htc, ?_⟩
      simp [he]
    · intro e he
      simp only [executeInvisibleOnboarding, h, he]
      apply List.mem_append_right
      simp

/-- A successfully generated contract used by the onboarding fixtures. -/
def contractA : Contract :=
  { content := "CONTRACT TEXT", fileSize := 2048, generationTimeMs := 1200 }

/-- The concrete candidate of the onboarding scenarios. -/
def candA : CandidateData :=
  { fullName := "Sarah Chen", email := "sarah.chen@x.com"
    role := "Software Engineer", department := "Engineering", country := "SG"
    salaryUSD := 120000, equityShares := some 15000, startDate := "2025-03-01"
    managerId := none, firstName := none, lastName := none
    employmentType := none }

/-- An environment whose employee insert fails, used to witness C1. -/
def envC1 : OnboardEnv :=
  { contractGen := fun _ => Except.ok contractA
    employeeInsert := Except.error "db down"
    contractSave := fun _ => none
    complianceInsert := Except.ok () }

/-- Witness for C1 at a concrete stage-2 failure. -/
theorem onboarding_overall_failure_semantics_witness :
    (executeInvisibleOnboarding candA envC1).result.success = false ∧
    (executeInvisibleOnboarding candA envC1).result.timeline = stage1Timeline candA envC1 :=
  (onboarding_overall_failure_semantics candA envC1).1 "db down" rfl

/-- Claim C9: whenever stage 2 succeeds (so the run completes all seven stages),
the `success` flag written to the `automation_logs` row equals
`errors.length === 0`; hence a run with any non-fatal failure is audited
as failed even though the returned bundle says `success:true`. -/
theorem audit_success_iff_no_errors (cand : CandidateData) (env : OnboardEnv) :
    ∀ newId, env.employeeInsert = Except.ok newId →
      ((executeInvisibleOnboarding cand env).audit.success =
        (executeInvisibleOnboarding cand env).result.errors.isEmpty) ∧
      (executeInvisibleOnboarding cand env).result.success = true ∧
      ((executeInvisibleOnboarding cand env).result.errors ≠ [] →
        (executeInvisibleOnboarding cand env).audit.success = false) := by
  intro newId h
  refine ⟨?_, ?_, ?_⟩
  · simp [executeInvisibleOnboarding, h]
  · simp [executeInvisibleOnboarding, h]
  · intro hne
    have h1 : (executeInvisibleOnboarding cand env).audit.success =
        (executeInvisibleOnboarding cand env).result.errors.isEmpty := by
      simp [executeInvisibleOnboarding, h]
    rw [h1]
    rw [Bool.eq_false_iff]
    intro hcontra
    exact hne (List.isEmpty_iff.mp hcontra)

/-- An environment in which only the NDA generation fails, used to witness
C9. -/
def envC9 : OnboardEnv :=
  { contractGen := fun t =>
      match t with
      | ContractType.nda => Except.error "rate limited"
      | _ => Except.ok contractA
    employeeInsert := Except.ok "emp-9"
    contractSave := fun _ => none
    complianceInsert := Except.ok () }

/-- Witness for C9: one failed generation makes the audit row failed while
the returned bundle still succeeds. -/
theorem audit_success_iff_no_errors_witness :
    (executeInvisibleOnboarding candA envC9).audit.success = false ∧
    (executeInvisibleOnboarding candA envC9).result.success = true :=
  ⟨(audit_success_iff_no_errors candA envC9 "emp-9" rfl).2.2 (by decide),
   (audit_success_iff_no_errors candA envC9 "emp-9" rfl).2.1⟩

/-- Claim C5: stage 1 requests exactly employment+NDA when `equityShares` is 0 or
absent, and exactly employment+NDA+equity when positive; when every
generation succeeds this yields exactly 2 resp. 3 generated documents, and
the run's timeline opens with a `contracts_generated` entry carrying that
count. -/
theorem onboarding_contract_type_selection (cand : CandidateData) (env : OnboardEnv) :
    ((cand.equityShares = none ∨ cand.equityShares = some 0) →
        contractTypesFor cand = [ContractType.employment, ContractType.nda]) ∧
    (∀ k, cand.equityShares = some k → 0 < k →
        contractTypesFor cand =
          [ContractType.employment, ContractType.nda, ContractType.equity]) ∧
    ((∀ t ∈ contractTypesFor cand, ∃ c, env.contractGen t = Except.ok c) →
        ((cand.equityShares = none ∨ cand.equityShares = some 0) →
            (successfulContracts cand env).length = 2) ∧
        (∀ k, cand.equityShares = some k → 0 < k →
            (successfulContracts cand env).length = 3)) ∧
    ((executeInvisibleOnboarding cand env).result.timeline.head? =
        some (TimelineEntry.contractsGenerated (successfulContracts cand env).length
          ((successfulContracts cand env).map Prod.fst))) := by
  have hsel1 : (cand.equityShares = none ∨ cand.equityShares = some 0) →
      contractTypesFor cand = [ContractType.employment, ContractType.nda] := by
    rintro (h | h) <;> simp [contractTypesFor, h]
  have hsel2 : ∀ k, cand.equityShares = some k → 0 < k →
      contractTypesFor cand =
        [ContractType.employment, ContractType.nda, ContractType.equity] := by
    intro k hk hpos
    simp [contractTypesFor, hk, hpos]
  have hlen : (∀ t ∈ contractTypesFor cand, ∃ c, env.contractGen t = Except.ok c) →
      (successfulContracts cand env).length = (contractTypesFor cand).length := by
    intro hall
    have hsome : ∀ x ∈ (contractTypesFor cand).map (fun t => (t, env.contractGen t)),
        ((fun tr : ContractType × Except String Contract =>
          match tr.2 with
          | Except.ok c => some (tr.1, c)
          | Except.error _ => none) x).isSome := by
      intro x hx
      obtain ⟨t, ht, rfl⟩ := List.mem_map.mp hx
      obtain ⟨c, hc⟩ := hall t ht
      simp [hc]
    unfold successfulContracts stage1Results
    exact (length_filterMap_of_isSome _ _ hsome).trans (List.length_map _ _)
  refine ⟨hsel1, hsel2, ?_, ?_⟩
  · intro hall
    constructor
    · intro h0
      rw [hlen hall, hsel1 h0]
      rfl
    · intro k hk hpos
      rw [hlen hall, hsel2 k hk hpos]
      rfl
  · cases hins : env.employeeInsert <;>
      simp [executeInvisibleOnboarding, hins, stage1Timeline]

/-- An environment in which every external call succeeds, used to witness
C5. -/
def envC5 : OnboardEnv :=
  { contractGen := fun _ => Except.ok contractA
    employeeInsert := Except.ok "emp-5"
    contractSave := fun _ => none
    complianceInsert := Except.ok () }

/-- Witness for C5: the equity-holding candidate gets the three contract
types and (all generations succeeding) exactly 3 generated documents. -/
theorem onboarding_contract_type_selection_witness :
    contractTypesFor candA =
      [ContractType.employment, ContractType.nda, ContractType.equity] ∧
    (successfulContracts candA envC5).length = 3 :=
  ⟨(onboarding_contract_type_selection candA envC5).2.1 15000 rfl (by norm_num),
   ((onboarding_contract_type_selection candA envC5).2.2.1
      (fun _ _ => ⟨contractA, rfl⟩)).2 15000 rfl (by norm_num)⟩

end HRFlow
